import Mathlib

/-!
Verification development for the devenv repository: shallow embeddings of the
worker pool, retry helper, status reporter, application deployer, local-app
port parsing, snapshot staging uploader, snapshot catalog generation, snapshot
restore driver, and the provisioning orchestrator, together with theorems
settling the frozen behavioural claims about them.
-/

namespace Devenv

/-- Model of a Go error value: either a leaf message (fmt.Errorf / errors.New)
or a wrapped error (pkg/errors.Wrap adds a context message around a cause). -/
inductive GoErr where
  | msg (s : String)
  | wrap (s : String) (cause : GoErr)
deriving DecidableEq, Repr

/-- Rendering of a Go error as its Error() string: pkg/errors formats a
wrapped error as "context: cause". -/
def GoErr.render : GoErr → String
  | .msg s => s
  | .wrap s cause => s ++ ": " ++ cause.render

/-- A single-quote character, used when rendering Go messages that contain
one. -/
def sq : String := String.singleton (Char.ofNat 39)

/-! ## worker.ProcessArray (src/unnamed/part_023)

The worker pool hands every element of the input slice to `fn` exactly once;
a worker publishes a non-nil result onto the results channel and a non-nil
error onto the error channel, and the supervisor drains both into slices.
After all items are accounted for, the call returns the collected results and,
when at least one error was collected, a single aggregate error formed with
fmt.Errorf("errors occurred: %v", errors).  The embedding is the sequential
sequential reading of that aggregate behaviour: per-item processing order inside the
pool is unspecified, only the collected results/errors matter. -/

/-- Aggregate error message produced by ProcessArray, mimicking Go fmt %v
rendering of an error slice. -/
def aggregateErrMsg (errs : List GoErr) : String :=
  "errors occurred: [" ++ String.intercalate " " (errs.map GoErr.render) ++ "]"

/-- Embedding of worker.ProcessArray: `fn` returns (result, error) like the Go
callback; non-nil results and non-nil errors are collected separately, and the
returned error is non-nil exactly when some per-item error occurred. -/
def processArray (data : List α) (fn : α → Option β × Option GoErr) :
    List β × Option GoErr :=
  let results := data.filterMap fun a => (fn a).1
  let errs := data.filterMap fun a => (fn a).2
  (results, if errs.isEmpty then none else some (.msg (aggregateErrMsg errs)))

/-! ## devenvutil.Backoff (src/pkg/devenvutil/backoff.go)

The helper wraps a constant backoff with backoff.WithMaxRetries(_, max) and
backoff.WithContext(_, ctx) and loops: call fn; on success return nil; compute
NextBackOff(); when it yields Stop (context already canceled, or max retries
consumed) return the generic "reached maximum attempts" error; otherwise wait
on a ticker racing ctx.Done(), returning ctx.Err() when cancellation arrives
during the wait.

Cancellation of the context is modelled by the index of the observation point
at which it becomes visible: point 2*i is the NextBackOff call made after
attempt i fails, point 2*i+1 is the ticker wait after attempt i. -/

/-- Outcome of a Backoff call: fn succeeded (nil), the generic
"reached maximum attempts" error, or ctx.Err() from the ticker select. -/
inductive BackoffResult where
  | ok
  | maxAttempts
  | ctxErr
deriving DecidableEq, Repr

/-- Whether the context is canceled at observation point `p`. -/
def ctxCanceledAt (cancelAt : Option Nat) (p : Nat) : Bool :=
  match cancelAt with
  | none => false
  | some t => t ≤ p

/-- One loop of devenvutil.Backoff.  `fails i` tells whether the i-th call of
fn (0-based) returns a non-nil error; `max` is the WithMaxRetries bound; the
second component of the result counts how many times fn was invoked.  The fuel
argument only bounds recursion; `backoffRun` supplies enough fuel that the
fuel-exhausted branch is unreachable (it coincides with the max-retries exit). -/
def backoffLoop (fails : Nat → Bool) (max : Nat) (cancelAt : Option Nat) :
    Nat → Nat → BackoffResult × Nat
  | 0, i => (.maxAttempts, i)
  | fuel + 1, i =>
    if ¬ fails i then
      (.ok, i + 1)
    else if ctxCanceledAt cancelAt (2 * i) then
      -- backoff.WithContext.NextBackOff sees ctx.Done() and returns Stop
      (.maxAttempts, i + 1)
    else if max ≤ i then
      -- backoff.WithMaxRetries has consumed all retries and returns Stop
      (.maxAttempts, i + 1)
    else if ctxCanceledAt cancelAt (2 * i + 1) then
      -- cancellation arrives during the ticker wait: select returns ctx.Err()
      (.ctxErr, i + 1)
    else
      backoffLoop fails max cancelAt fuel (i + 1)

/-- Embedding of devenvutil.Backoff: run the loop from attempt 0 with enough
fuel that the max-retries exit always fires before fuel runs out. -/
def backoffRun (fails : Nat → Bool) (max : Nat) (cancelAt : Option Nat) :
    BackoffResult × Nat :=
  backoffLoop fails max cancelAt (max + 1) 0

example : backoffRun (fun j => decide (j < 2)) 5 none = (.ok, 3) := by decide

example : backoffRun (fun j => decide (j < 4)) 2 none = (.maxAttempts, 3) := by decide

example : backoffRun (fun _ => true) 5 (some 0) = (.maxAttempts, 1) := by decide

example : backoffRun (fun _ => true) 5 (some 3) = (.ctxErr, 2) := by decide

/-! ## status.GetStatus (src/unnamed/part_005)

Status string constants from the status package. -/

def Unknown : String := "unknown"

def Unprovisioned : String := "unprovisioned"

def Running : String := "running"

def Stopped : String := "stopped"

def Degraded : String := "degraded"

/-- Result of Docker ContainerInspect on one container name: the not-found
error, some other error, or the container with its lifecycle state and the
optional io.outreach.devenv.version label. -/
inductive InspectResult where
  | notFound
  | fail (e : GoErr)
  | found (state : String) (versionLabel : Option String)
deriving DecidableEq, Repr

/-- Environment a GetStatus call observes: whether the Docker and Kubernetes
clients could be created (nil checks on o.d / o.k), the inspect results for
the current container name and the legacy "k3s" name, and the outcomes of the
bounded pod list, server-version query and local DNS check. -/
structure StatusEnv where
  hasDocker : Bool
  hasKube : Bool
  inspectCurrent : InspectResult
  inspectLegacy : InspectResult
  podListErr : Option GoErr
  serverVersion : Except GoErr String
  dnsErr : Option GoErr
deriving Repr

/-- The Status value GetStatus fills in. -/
structure StatusValue where
  status : String
  reason : String
  kubernetesVersion : String
  version : String
deriving DecidableEq, Repr

/-- Continuation of GetStatus once a container was found (current or legacy):
read the version label, map "exited" to Stopped, then run the pod list,
server-version and DNS checks, degrading on the first failure. -/
def getStatusWithContainer (s : StatusValue) (state : String)
    (versionLabel : Option String) (env : StatusEnv) : StatusValue × Option GoErr :=
  let s := match versionLabel with
    | some v => { s with version := v }
    | none => s
  if state = "exited" then
    ({ s with status := Stopped }, none)
  else
    match env.podListErr with
    | some e =>
      ({ s with status := Degraded,
                reason := (GoErr.wrap "failed to reach kubernetes" e).render }, none)
    | none =>
      match env.serverVersion with
      | .error e =>
        ({ s with status := Degraded,
                  reason := (GoErr.wrap "failed to get kubernetes version" e).render }, none)
      | .ok v =>
        match env.dnsErr with
        | some e =>
          ({ s with status := Degraded,
                    reason := (GoErr.wrap "local DNS resolution is failing" e).render }, none)
        | none =>
          ({ s with status := Running, kubernetesVersion := v }, none)

/-- Embedding of status.Options.GetStatus. -/
def getStatus (env : StatusEnv) : StatusValue × Option GoErr :=
  let status0 : StatusValue :=
    { status := Unknown, reason := "", kubernetesVersion := "", version := "" }
  if ¬ env.hasDocker then
    ({ status0 with
        reason := "Failed to communicate with Docker (client couldn" ++ sq ++ "t be created)" }, none)
  else if ¬ env.hasKube then
    ({ status0 with status := Unprovisioned }, none)
  else
    match env.inspectCurrent with
    | .fail e => (status0, some e)
    | .notFound =>
      match env.inspectLegacy with
      | .notFound => ({ status0 with status := Unprovisioned }, none)
      | .fail e => (status0, some e)
      | .found st lbl =>
        getStatusWithContainer
          { status0 with reason := "Older Kubernetes Runtime Found" } st lbl env
    | .found st lbl => getStatusWithContainer status0 st lbl env

/-! ## deployapp.App.Deploy type resolution (src/pkg/deployapp/deployapp.go) -/

/-- The two application repository conventions. -/
inductive AppType where
  | bootstrap
  | legacy
deriving DecidableEq, Repr

/-- Environment observed by App.Deploy: whether a path was given (local app)
or the repository download succeeds, which descriptor files exist in the
checkout, and the outcomes of the per-type deploy bodies.  The db-migration
job deletion step can fail but is only logged. -/
structure DeployEnv where
  pathGiven : Bool
  downloadErr : Option GoErr
  hasServiceYaml : Bool
  hasDeployScript : Bool
  deleteJobsErr : Option GoErr
  deployBootstrapErr : Option GoErr
  deployLegacyErr : Option GoErr
deriving DecidableEq, Repr

/-- Embedding of deployapp.App.Deploy: returns the error result and which
deploy body (if any) was invoked. -/
def deployRun (env : DeployEnv) : Option GoErr × Option AppType :=
  if ¬ env.pathGiven ∧ env.downloadErr.isSome then
    (env.downloadErr, none)
  else
    if env.hasServiceYaml then
      -- a.Type = TypeBootstrap; db-migration job deletion errors are logged only
      (env.deployBootstrapErr, some .bootstrap)
    else if env.hasDeployScript then
      (env.deployLegacyErr, some .legacy)
    else
      (some (.msg "failed to determine application type, no service.yaml or scripts/deploy-dev.sh"),
       none)

/-! ## local-app port flag parsing (src/unnamed/part_000, NewCmdLocalApp) -/

/-- Splitting of a character list at every occurrence of `sep`, with the
semantics of Go strings.Split: the empty input yields one empty field. -/
def splitChars (sep : Char) : List Char → List (List Char)
  | [] => [[]]
  | c :: rest =>
    let r := splitChars sep rest
    if c = sep then
      [] :: r
    else
      match r with
      | first :: others => (c :: first) :: others
      | [] => [[c]]

/-- Embedding of Go strings.Split(s, ":"). -/
def splitOnColon (s : String) : List String :=
  (splitChars (Char.ofNat 58) s.data).map fun l => String.mk l

/-- Embedding of Go strconv.ParseUint(s, 10, 0): decimal digits only,
nonempty, and the value must fit in 64 bits. -/
def goParseUint64 (s : String) : Except GoErr Nat :=
  let cs := s.data
  if cs.isEmpty then .error (.msg "invalid syntax")
  else if cs.all (fun c => c.isDigit) then
    let n := cs.foldl (fun acc c => acc * 10 + (c.toNat - 48)) 0
    if n < 2 ^ 64 then .ok n else .error (.msg "value out of range")
  else .error (.msg "invalid syntax")

/-- Lookup in the o.Ports map (map[uint64]uint64 used only via lookup and
insert, so the association-list representation is faithful). -/
def portsLookup (m : List (Nat × Nat)) (k : Nat) : Option Nat :=
  match m with
  | [] => none
  | (a, b) :: rest => if a = k then some b else portsLookup rest k

/-- Parsing of one --port value: split on ":"; a single value is treated as
an identity mapping (with a deprecation warning); other lengths than two are
a format error; both sides must parse as ports. -/
def parsePortEntry (pstr : String) : Except GoErr (Nat × Nat) :=
  let split := splitOnColon pstr
  let split := if split.length = 1 then split ++ split else split
  match split with
  | [s, d] =>
    match goParseUint64 s with
    | .error _ => .error (.msg ("failed to parse " ++ s ++ " as a port"))
    | .ok sp =>
      match goParseUint64 d with
      | .error _ => .error (.msg ("failed to parse " ++ d ++ " as a port"))
      | .ok dp => .ok (sp, dp)
  | _ => .error (.msg ("expected format srcPort:destPort, got " ++ sq ++ pstr ++ sq))

/-- The loop over the repeated --port flag values: each parsed mapping is
rejected when its source port is already mapped, otherwise recorded. -/
def localAppPortLoop : List String → List (Nat × Nat) → Except GoErr (List (Nat × Nat))
  | [], m => .ok m
  | pstr :: rest, m =>
    match parsePortEntry pstr with
    | .error e => .error e
    | .ok (sp, dp) =>
      match portsLookup m sp with
      | some existing =>
        .error (.msg ("port " ++ toString sp ++ " is already mapped to " ++ toString existing))
      | none => localAppPortLoop rest (m ++ [(sp, dp)])

/-- Outcome of the local-app command Action up to the o.Run call: the error
returned (if any), the recorded port map, and whether o.Run — where all
tunnel and manifest work happens — was reached. -/
structure LocalAppAction where
  ret : Option GoErr
  ports : List (Nat × Nat)
  ranRun : Bool
deriving DecidableEq, Repr

/-- Embedding of the local-app cli Action body up to the o.Run call:
positional-argument checks, then the --port loop; o.Run is reached only when
every port flag was accepted. -/
def localAppAction (args : List String) (portFlags : List String) : LocalAppAction :=
  if args.length < 1 then
    { ret := some (.msg "missing appName argument"), ports := [], ranRun := false }
  else if args.length > 1 then
    { ret := some (.msg ("expected only one argument, got " ++ toString args.length)),
      ports := [], ranRun := false }
  else
    match localAppPortLoop portFlags [] with
    | .error e => { ret := some e, ports := [], ranRun := false }
    | .ok m => { ret := none, ports := m, ranRun := true }

example :
    localAppAction ["svc"] ["8080:80", "9090:90"] =
      { ret := none, ports := [(8080, 80), (9090, 90)], ranRun := true } := by decide

example :
    (localAppAction ["svc"] ["8080:80", "8080:90"]).ret =
      some (.msg "port 8080 is already mapped to 80") := by decide

/-! ## Snapshot staging uploader (src/cmd/snapshot-uploader/upload.go)

StartFromEnv parses a snapshot.Config from the CONFIG environment variable and
runs the steps CreateClients, Prepare, DownloadFile, UploadArchiveContents in
order, stopping at the first error (wrapped with the reflected step name). -/

/-- Mirror of snapshot.S3Config (src/pkg/snapshot/snapshot.go): connection and
object coordinates for one side of the staging job. -/
structure S3Config where
  awsAccessKey : String
  awsSecretKey : String
  awsSessionToken : String
  s3Host : String
  bucket : String
  region : String
  key : String
  digest : String
deriving DecidableEq, Repr

/-- Mirror of snapshot.Config: source and destination descriptors. -/
structure SnapConfig where
  source : S3Config
  dest : S3Config
deriving DecidableEq, Repr

/-- One tar entry of the downloaded archive, by type flag. -/
inductive TarEntry where
  | dir (name : String)
  | reg (name : String) (size : Nat)
  | other (name : String)
deriving DecidableEq, Repr

/-- Embedding of Go strings.TrimPrefix(name, "./"). -/
def trimDotSlash (s : String) : String :=
  match s.data with
  | '.' :: '/' :: rest => String.mk rest
  | _ => s

/-- Environment observed by one staging-job run: the parsed config, the
outcomes of client creation, the marker object currently readable from the
destination ("current.yaml" digest when GetObject and the YAML decode both
succeed), the keys listed in the destination bucket, the IO outcomes of the
download, the base64 MD5 digest computed over the downloaded bytes, the tar
entries of the archive, and the per-key PutObject outcomes. -/
structure UploaderEnv where
  conf : SnapConfig
  parseErr : Option GoErr
  createSourceErr : Option GoErr
  createDestErr : Option GoErr
  markerDigest : Option String
  destObjects : List String
  getSourceObjErr : Option GoErr
  createTempErr : Option GoErr
  mkdirErr : Option GoErr
  createErr : Option GoErr
  copyErr : Option GoErr
  computedDigest : String
  reopenErr : Option GoErr
  archive : List TarEntry
  tarErr : Option GoErr
  putErr : String → Option GoErr
  markerPutErr : Option GoErr

/-- Observable effects of a staging-job run: keys removed from the
destination in Prepare, whether the source download was started, keys
extracted into the destination by UploadArchiveContents, and whether the
current.yaml marker was rewritten. -/
structure UploadTrace where
  cleared : List String
  downloadAttempted : Bool
  extracted : List String
  markerWritten : Bool
deriving DecidableEq, Repr

/-- Step-name wrapping applied by StartFromEnv, using the reflected Go
function name. -/
def stepWrap (name : String) (e : GoErr) : GoErr :=
  .wrap ("failed to run step main.(*SnapshotUploader)." ++ name ++ "-fm") e

/-- Embedding of SnapshotUploader.CreateClients. -/
def createClients (env : UploaderEnv) : Option GoErr :=
  match env.createSourceErr with
  | some e => some (.wrap "failed to create source s3 client" e)
  | none =>
    match env.createDestErr with
    | some e => some (.wrap "failed to create dest s3 client" e)
    | none => none

/-- Embedding of SnapshotUploader.Prepare: when the destination marker
records the requested source digest the step returns immediately; otherwise
every listed key of the destination bucket is removed (removal failures are
only logged).  Prepare never returns an error. -/
def prepare (env : UploaderEnv) : List String :=
  match env.markerDigest with
  | some d =>
    if d = env.conf.source.digest then []
    else env.destObjects.filter fun k => k ≠ ""
  | none => env.destObjects.filter fun k => k ≠ ""

/-- Embedding of SnapshotUploader.DownloadFile: fetch the source object,
stream it to a temp file while hashing, and fail with an explicit checksum
error when the computed digest differs from the configured source digest. -/
def downloadFile (env : UploaderEnv) : Option GoErr :=
  match env.getSourceObjErr with
  | some e => some (.wrap "failed to fetch the latest snapshot information" e)
  | none =>
    match env.createTempErr with
    | some e => some (.wrap "failed to create temporary file" e)
    | none =>
      match env.mkdirErr with
      | some e => some (.wrap "failed to create temporary directory" e)
      | none =>
        match env.createErr with
        | some e => some (.wrap "failed to create temporary file" e)
        | none =>
          match env.copyErr with
          | some e => some (.wrap "failed to write file" e)
          | none =>
            if env.computedDigest ≠ env.conf.source.digest then
              some (.msg "downloaded snapshot failed checksum validation")
            else
              match env.reopenErr with
              | some e => some (.wrap "failed to open temporary file" e)
              | none => none

/-- Extraction loop of UploadArchiveContents: directories are skipped,
regular files are uploaded under their "./"-trimmed names, other entry types
are ignored; the first upload failure aborts. -/
def uploadEntries (putErr : String → Option GoErr) :
    List TarEntry → List String → List String × Option GoErr
  | [], acc => (acc, none)
  | .dir _ :: rest, acc => uploadEntries putErr rest acc
  | .other _ :: rest, acc => uploadEntries putErr rest acc
  | .reg name _ :: rest, acc =>
    let fileName := trimDotSlash name
    match putErr fileName with
    | some e =>
      (acc, some (.wrap ("failed to upload file " ++ sq ++ fileName ++ sq) e))
    | none => uploadEntries putErr rest (acc ++ [fileName])

/-- Embedding of SnapshotUploader.UploadArchiveContents: extract the archive
entry-by-entry into the destination bucket, then write the updated
current.yaml marker recording the staged digest. -/
def uploadArchiveContents (env : UploaderEnv) :
    List String × Bool × Option GoErr :=
  let (extracted, upErr) := uploadEntries env.putErr env.archive []
  match upErr with
  | some e => (extracted, false, some e)
  | none =>
    match env.tarErr with
    | some e => (extracted, false, some (.wrap "failed to read tar header" e))
    | none =>
      match env.markerPutErr with
      | some e => (extracted, false, some (.wrap "failed to set current snapshot" e))
      | none => (extracted, true, none)

/-- Result of a staging-job run: the returned error and the effect trace. -/
structure UploadResult where
  ret : Option GoErr
  trace : UploadTrace
deriving Repr

/-- Embedding of SnapshotUploader.StartFromEnv: parse CONFIG, then run the
four steps in order, wrapping the first failure with its step name. -/
def startFromEnv (env : UploaderEnv) : UploadResult :=
  let tr0 : UploadTrace :=
    { cleared := [], downloadAttempted := false, extracted := [], markerWritten := false }
  match env.parseErr with
  | some e => { ret := some (.wrap "failed to parse config from CONFIG" e), trace := tr0 }
  | none =>
    match createClients env with
    | some e => { ret := some (stepWrap "CreateClients" e), trace := tr0 }
    | none =>
      let tr1 := { tr0 with cleared := prepare env }
      let tr2 := { tr1 with downloadAttempted := true }
      match downloadFile env with
      | some e => { ret := some (stepWrap "DownloadFile" e), trace := tr2 }
      | none =>
        let (extracted, markerWritten, upErr) := uploadArchiveContents env
        let tr3 := { tr2 with extracted := extracted, markerWritten := markerWritten }
        match upErr with
        | some e => { ret := some (stepWrap "UploadArchiveContents" e), trace := tr3 }
        | none => { ret := none, trace := tr3 }

/-! ## Snapshot catalog generation (src/cmd/devenv/snapshot/snapshot_generate.go)

Generate loads the central lockfile from the shared bucket, produces one
snapshot per configured target, prepends each produced item to the head of
the channel list of that target, and finally writes the updated catalog back
(unless invoked in skip-upload mode).  Go maps are modelled as association
lists with unique keys, accessed only through lookup and replace-or-append. -/

/-- Association-list lookup (Go map read). -/
def alGet : List (String × V) → String → Option V
  | [], _ => none
  | (a, b) :: rest, k => if a = k then some b else alGet rest k

/-- Association-list replace-or-append (Go map write). -/
def alPut : List (String × V) → String → V → List (String × V)
  | [], k, v => [(k, v)]
  | (a, b) :: rest, k, v =>
    if a = k then (k, v) :: rest else (a, b) :: alPut rest k v

/-- Mirror of box.SnapshotTarget: the recipe for producing one snapshot. -/
structure SnapshotTarget where
  deployApps : List String
  postDeployApps : List String
  command : String
  postRestore : String
  readinessAddress : String
deriving DecidableEq, Repr

/-- Mirror of box.SnapshotLockListItem: one generated snapshot in the
catalog. -/
structure SnapshotLockListItem where
  digest : String
  uri : String
  config : SnapshotTarget
  veleroBackupName : String
deriving DecidableEq, Repr

/-- Mirror of box.SnapshotLockList: the per-channel history map of one
target; `none` models a nil Go map. -/
structure SnapshotLockList where
  snapshots : Option (List (String × List SnapshotLockListItem))
deriving DecidableEq, Repr

/-- Mirror of box.SnapshotLock: the central catalog document; `none` models
a nil TargetsV2 map. -/
structure SnapshotLock where
  targetsV2 : Option (List (String × SnapshotLockList))
deriving DecidableEq, Repr

/-- Channel history of one (target, channel) pair of the catalog, with absent
maps and absent keys read as the empty list. -/
def lockGet (lf : SnapshotLock) (name channel : String) : List SnapshotLockListItem :=
  match alGet (lf.targetsV2.getD []) name with
  | none => []
  | some ll => ((alGet (ll.snapshots.getD []) channel).getD [])

/-- Embedding of the catalog-update statements of the Generate loop body:
materialize missing map entries, then prepend the new item to the head of
targets[name].snapshots[channel]. -/
def insertLockItem (lf : SnapshotLock) (name channel : String)
    (itm : SnapshotLockListItem) : SnapshotLock :=
  let m := lf.targetsV2.getD []
  let ll := (alGet m name).getD { snapshots := none }
  let snaps := ll.snapshots.getD []
  let cur := (alGet snaps channel).getD []
  { lf with
    targetsV2 := some (alPut m name { snapshots := some (alPut snaps channel (itm :: cur)) }) }

/-- Environment of a Generate run: early-step outcomes, the remote lockfile
fetch (a GetObject failure is only warned about and yields a fresh empty
catalog, a decode failure is fatal), the configured targets in iteration
order, the per-target generateSnapshot outcome, and the final catalog
upload outcome. -/
structure GenEnv where
  loadBoxErr : Option GoErr
  credsErr : Option GoErr
  awsCfgErr : Option GoErr
  getLockFailed : Bool
  decodeLockErr : Option GoErr
  remoteLock : SnapshotLock
  targets : List (String × SnapshotTarget)
  genResult : String → Except GoErr SnapshotLockListItem
  putLockErr : Option GoErr

/-- The lockfile value Generate starts from: a GetObject failure leaves the
fresh empty document, a decode failure aborts the run. -/
def loadedLock (env : GenEnv) : Except GoErr SnapshotLock :=
  if env.getLockFailed then .ok { targetsV2 := none }
  else
    match env.decodeLockErr with
    | some e => .error (.wrap "failed to parse remote snapshot lockfile" e)
    | none => .ok env.remoteLock

/-- The per-target loop of Generate: produce a snapshot for each target and
prepend the produced item; the first failure aborts the whole run. -/
def genLoop (genResult : String → Except GoErr SnapshotLockListItem)
    (channel : String) :
    List (String × SnapshotTarget) → SnapshotLock → Except GoErr SnapshotLock
  | [], lf => .ok lf
  | (name, _t) :: rest, lf =>
    match genResult name with
    | .error e => .error e
    | .ok itm => genLoop genResult channel rest (insertLockItem lf name channel itm)

/-- Result of a Generate run: the returned error, the in-memory catalog at
loop completion (absent when the run aborted first), and whether the catalog
document was written back. -/
structure GenResult where
  ret : Option GoErr
  finalLock : Option SnapshotLock
  wroteLock : Bool
deriving Repr

/-- Embedding of snapshot.Options.Generate. -/
def generateRun (env : GenEnv) (skipUpload : Bool) (channel : String) : GenResult :=
  match env.loadBoxErr with
  | some e => { ret := some (.wrap "failed to load box configuration" e),
                finalLock := none, wroteLock := false }
  | none =>
  match env.credsErr with
  | some e => { ret := some (.wrap "failed to get necessary permissions" e),
                finalLock := none, wroteLock := false }
  | none =>
  match env.awsCfgErr with
  | some e => { ret := some e, finalLock := none, wroteLock := false }
  | none =>
  match loadedLock env with
  | .error e => { ret := some e, finalLock := none, wroteLock := false }
  | .ok lf =>
    let lf := { lf with targetsV2 := some (lf.targetsV2.getD []) }
    match genLoop env.genResult channel env.targets lf with
    | .error e => { ret := some e, finalLock := none, wroteLock := false }
    | .ok lf2 =>
      if skipUpload then
        { ret := none, finalLock := some lf2, wroteLock := false }
      else
        match env.putLockErr with
        | some e => { ret := some e, finalLock := some lf2, wroteLock := false }
        | none => { ret := none, finalLock := some lf2, wroteLock := true }

/-! ## Snapshot restore driver (src/unnamed/part_003)

RestoreSnapshot gates the destructive live-restore path behind an interactive
confirmation, then checks the backup exists, deletes a stale completed restore
of the same name, deletes all non-system namespaces (live mode only), submits
the restore object and watches it to a terminal phase. -/

/-- Outcome of a fixed-interval deletion poll: the object disappeared, a Get
failed with a non-notfound error, or the context was canceled first. -/
inductive PollOutcome where
  | gone
  | getErr (e : GoErr)
  | canceled
deriving DecidableEq, Repr

/-- Velero restore phases relevant to the watch loop. -/
inductive RestorePhase where
  | new
  | inProgress
  | completed
  | partFailed
  | failed
deriving DecidableEq, Repr

/-- Namespaces the deleteNamespaces worker skips. -/
def nsSkipList : List String :=
  ["default", "kube-system", "velero", "kube-public", "kube-node-lease",
   "nginx-ingress", "local-path-storage"]

/-- Environment of one deleteNamespaces call: the namespace listing, the
per-namespace Delete outcome and the per-namespace deletion poll outcome. -/
structure DeleteNsEnv where
  listErr : Option GoErr
  namespaces : List String
  deleteErr : String → Option GoErr
  poll : String → PollOutcome

/-- Per-item body of the deleteNamespaces worker: skip system namespaces,
delete, then poll until the namespace is gone. -/
def deleteNsItemErr (env : DeleteNsEnv) (n : String) : Option GoErr :=
  if n ∈ nsSkipList then none
  else
    match env.deleteErr n with
    | some e => some e
    | none =>
      match env.poll n with
      | .gone => none
      | .getErr e => some e
      | .canceled => some (.msg "context canceled")

/-- Embedding of snapshot.Options.deleteNamespaces: list all namespaces and
run the per-item body through the worker pool (whose per-item results are
always nil). -/
def deleteNamespaces (env : DeleteNsEnv) : Option GoErr :=
  match env.listErr with
  | some e => some e
  | none =>
    (processArray env.namespaces fun n => ((none : Option Unit), deleteNsItemErr env n)).2

/-- Environment of one RestoreSnapshot call. `existingRestore` is the phase
of a same-name restore when the initial Get succeeds (any Get error takes the
skip branch); `updates` is the stream of filtered informer updates, an
exhausted stream standing for a watch that only ends by cancellation. -/
structure RestoreEnv where
  confirm : Except GoErr Bool
  getSnapshotErr : Option GoErr
  existingRestore : Option RestorePhase
  deleteRestoreErr : Option GoErr
  deleteRestorePoll : PollOutcome
  deleteNs : DeleteNsEnv
  createRestoreErr : Option GoErr
  updates : List RestorePhase

/-- Embedding of snapshot.Options.deleteExistingRestore. -/
def deleteExistingRestore (env : RestoreEnv) : Option GoErr :=
  match env.existingRestore with
  | none => none
  | some phase =>
    if phase = .inProgress then
      some (.msg "existing restore is in progress, refusing to create new restore")
    else
      match env.deleteRestoreErr with
      | some e => some (.wrap "failed to delete existing restore" e)
      | none =>
        match env.deleteRestorePoll with
        | .gone => none
        | .getErr e => some e
        | .canceled => some (.msg "context canceled")

/-- The watch loop of RestoreSnapshot: block until an update leaves the
New/InProgress phases; a stream that never does ends with ctx.Err(). -/
def watchRestore : List RestorePhase → Option GoErr
  | [] => some (.msg "context canceled")
  | p :: rest =>
    if p = RestorePhase.new ∨ p = RestorePhase.inProgress then watchRestore rest
    else none

/-- Result of a RestoreSnapshot call: the returned error and whether
deleteNamespaces was invoked. -/
structure RestoreResult where
  ret : Option GoErr
  deleteNamespacesCalled : Bool
deriving Repr

/-- Tail of RestoreSnapshot after the namespace-deletion stage: submit the
restore object and watch it to a terminal phase. -/
def restoreSubmitAndWatch (env : RestoreEnv) (called : Bool) : RestoreResult :=
  match env.createRestoreErr with
  | some e => { ret := some e, deleteNamespacesCalled := called }
  | none =>
    match watchRestore env.updates with
    | some e => { ret := some e, deleteNamespacesCalled := called }
    | none => { ret := none, deleteNamespacesCalled := called }

/-- Embedding of snapshot.Options.RestoreSnapshot. -/
def restoreSnapshot (env : RestoreEnv) (snapshotName : String)
    (liveRestore : Bool) : RestoreResult :=
  if snapshotName = "" then
    { ret := some (.msg "missing snapshot name"), deleteNamespacesCalled := false }
  else
    let gate : Option GoErr :=
      if liveRestore then
        match env.confirm with
        | .error e => some e
        | .ok proceed => if proceed then none else some (.msg "denied to proceed")
      else none
    match gate with
    | some e => { ret := some e, deleteNamespacesCalled := false }
    | none =>
      match env.getSnapshotErr with
      | some e => { ret := some e, deleteNamespacesCalled := false }
      | none =>
        match deleteExistingRestore env with
        | some e => { ret := some e, deleteNamespacesCalled := false }
        | none =>
          if liveRestore then
            match deleteNamespaces env.deleteNs with
            | some e => { ret := some e, deleteNamespacesCalled := true }
            | none => restoreSubmitAndWatch env true
          else
            restoreSubmitAndWatch env false

/-! ## Destroy command (cmd/devenv/destroy) and provisioning orchestrator
(src/unnamed/part_025, provision Options.Run)

The provisioning Run creates the cluster, persists the new context pointer,
and then either deploys the base manifests or restores from a snapshot; a
snapshot-restore failure triggers a cleanup destroy of the new cluster before
the wrapped original error is returned. -/

/-- Runtime locality, mirroring kubernetesruntime.RuntimeType. -/
inductive RuntimeType where
  | localType
  | remoteType
deriving DecidableEq, Repr

/-- Options of destroy.Options.Run as invoked by a caller. -/
structure DestroyOpts where
  currentClusterName : String
  runtimeClusterName : String
  runtimeType : RuntimeType
  removeImageCache : Bool
  removeSnapshotStorage : Bool
deriving DecidableEq, Repr

/-- Environment of a destroy run: the image-cache volume removal outcome
(notfound removal errors are tolerated, modelled as none). -/
structure DestroyEnv where
  volumeRemoveErr : Option GoErr
deriving Repr

/-- Embedding of destroy.Options.Run: refuse mismatched cluster names, invoke
the runtime Destroy exactly once with its error ignored, then optionally
remove the local image cache.  The second component lists the cluster names
passed to KubernetesRuntime.Destroy. -/
def destroyRun (o : DestroyOpts) (env : DestroyEnv) : Option GoErr × List String :=
  if o.currentClusterName ≠ o.runtimeClusterName then
    (some (.msg ("cannot delete clusters that don" ++ sq ++ "t belong to us")), [])
  else
    let destroys := [o.runtimeClusterName]
    let imageCacheErr : Option GoErr :=
      if o.removeImageCache ∧ o.runtimeType = RuntimeType.localType then
        match env.volumeRemoveErr with
        | some e => some (.wrap "failed to remove image volume" e)
        | none => none
      else none
    match imageCacheErr with
    | some e => (some e, destroys)
    | none => (none, destroys)

/-- Environment of a provisioning run: runtime identity plus the outcome of
every step of provision Options.Run, in source order.  A LoadConfig failure
falls back to a fresh empty config and is not fatal. -/
structure ProvisionEnv where
  runtimeName : String
  clusterName : String
  runtimeType : RuntimeType
  goosDarwin : Bool
  configureDockerErr : Option GoErr
  checkPrereqsErr : Option GoErr
  getClusters : Except GoErr (List String)
  ensureImagePullErr : Option GoErr
  generateDockerConfigErr : Option GoErr
  createErr : Option GoErr
  saveConfigErr : Option GoErr
  getKubeConfigErr : Option GoErr
  writeKubeConfigErr : Option GoErr
  kubeClientErr : Option GoErr
  removeServiceImagesErr : Option GoErr
  base : Bool
  snapshotRestoreErr : Option GoErr
  deployBaseManifestsErr : Option GoErr
  destroyNewOptionsErr : Option GoErr
  deployAppNewOptionsErr : Option GoErr
  deployApps : List String
deriving Repr

/-- Observable outcome of a provisioning run: the saved context pointer (as
written by config.SaveConfig), every cluster name a Destroy was attempted
against, and the returned error. -/
structure ProvisionTrace where
  savedContext : Option String
  destroyAttempts : List String
  ret : Option GoErr
deriving DecidableEq, Repr

/-- Embedding of provision Options.Run (src/unnamed/part_025 lines 496-621).
The context pointer runtimeName:clusterName is saved right after cluster
creation, before either provisioning branch runs. -/
def provisionRun (env : ProvisionEnv) (denv : DestroyEnv) : ProvisionTrace :=
  let fail0 : GoErr → ProvisionTrace := fun e =>
    { savedContext := none, destroyAttempts := [], ret := some e }
  match (if env.runtimeType = RuntimeType.localType ∧ env.goosDarwin
         then env.configureDockerErr else none) with
  | some e => fail0 e
  | none =>
  match env.checkPrereqsErr with
  | some e => fail0 (.wrap "pre-req check failed" e)
  | none =>
  match env.getClusters with
  | .error e => fail0 (.wrap ("failed to ensure devenv didn" ++ sq ++ "t already exist") e)
  | .ok clusters =>
  if env.clusterName ∈ clusters then
    fail0 (.msg ("devenv already exists, run " ++ sq ++ "devenv destroy" ++ sq ++
      " to be able to run provision again"))
  else
  match env.ensureImagePullErr with
  | some e => fail0 (.wrap "failed to setup image pull secret" e)
  | none =>
  match env.generateDockerConfigErr with
  | some e => fail0 (.wrap "failed to setup image pull secret" e)
  | none =>
  match env.createErr with
  | some e => fail0 (.wrap "failed to create kind cluster" e)
  | none =>
  -- conf.CurrentContext = runtime name + ":" + cluster name; SaveConfig
  let ctxStr := env.runtimeName ++ ":" ++ env.clusterName
  match env.saveConfigErr with
  | some e => fail0 (.wrap "failed to save devenv config" e)
  | none =>
  let withCtx : Option GoErr → List String → ProvisionTrace := fun r d =>
    { savedContext := some ctxStr, destroyAttempts := d, ret := r }
  match env.getKubeConfigErr with
  | some e => withCtx (some (.wrap "failed to create kind cluster" e)) []
  | none =>
  match env.writeKubeConfigErr with
  | some e => withCtx (some (.wrap "failed to write kubeconfig" e)) []
  | none =>
  match env.kubeClientErr with
  | some e => withCtx (some e) []
  | none =>
  match env.removeServiceImagesErr with
  | some e => withCtx (some (.wrap "failed to remove docker images from cache" e)) []
  | none =>
  let branch : Option GoErr × List String :=
    if ¬ env.base then
      match env.snapshotRestoreErr with
      | none => (none, [])
      | some e =>
        -- cleanup: destroy the intermediate environment, then return the
        -- wrapped original error
        match env.destroyNewOptionsErr with
        | some e2 => (some e2, [])
        | none =>
          let dres := destroyRun
            { currentClusterName := env.clusterName,
              runtimeClusterName := env.clusterName,
              runtimeType := env.runtimeType,
              removeImageCache := false,
              removeSnapshotStorage := false } denv
          match dres.1 with
          | some e2 => (some e2, dres.2)
          | none => (some (.wrap "failed to provision from snapshot" e), dres.2)
    else
      match env.deployBaseManifestsErr with
      | some e => (some e, [])
      | none => (none, [])
  match branch with
  | (some e, d) => withCtx (some e) d
  | (none, d) =>
    match env.deployAppNewOptionsErr with
    | some e => withCtx (some e) d
    | none =>
      -- per-app deploy failures are logged, not returned
      withCtx none d

/-! ## Theorems -/

theorem length_filterMap_fst_eq (data : List α) (fn : α → Option β × Option GoErr)
    (hgood : ∀ a ∈ data,
      ((fn a).1.isSome ∧ (fn a).2 = none) ∨ ((fn a).1 = none ∧ (fn a).2.isSome)) :
    (data.filterMap fun a => (fn a).1).length
      = data.length - (data.filter fun a => (fn a).2.isSome).length := by
  induction data with
  | nil => rfl
  | cons a t ih =>
    have ha := hgood a (by simp)
    have ht : ∀ x ∈ t,
        ((fn x).1.isSome ∧ (fn x).2 = none) ∨ ((fn x).1 = none ∧ (fn x).2.isSome) :=
      fun x hx => hgood x (by simp [hx])
    have hMt : (t.filter fun x => (fn x).2.isSome).length ≤ t.length :=
      List.length_filter_le _ t
    rcases ha with ⟨h1, h2⟩ | ⟨h1, h2⟩
    · obtain ⟨b, hb⟩ := Option.isSome_iff_exists.mp h1
      simp only [List.filterMap_cons, hb, List.filter_cons, h2, Option.isSome_none,
        Bool.false_eq_true, if_false, List.length_cons, ih ht]
      omega
    · simp only [List.filterMap_cons, h1, List.filter_cons, h2, if_pos,
        List.length_cons, ih ht]
      omega

theorem length_filterMap_snd_eq (data : List α) (fn : α → Option β × Option GoErr) :
    (data.filterMap fun a => (fn a).2).length
      = (data.filter fun a => (fn a).2.isSome).length := by
  induction data with
  | nil => rfl
  | cons a t ih =>
    cases h : (fn a).2 <;>
      simp [List.filterMap_cons, List.filter_cons, h, ih]

/-- Claim C6: for an input slice of size N whose per-item function fails on
exactly M items (with an absent result) and succeeds with a present result on
the rest, ProcessArray returns exactly N − M results, and its aggregate error
is present exactly when M > 0. -/
theorem c6_processArray_counts (data : List α) (fn : α → Option β × Option GoErr)
    (M : Nat)
    (hgood : ∀ a ∈ data,
      ((fn a).1.isSome ∧ (fn a).2 = none) ∨ ((fn a).1 = none ∧ (fn a).2.isSome))
    (hM : M = (data.filter fun a => (fn a).2.isSome).length) :
    (processArray data fn).1.length = data.length - M ∧
    ((processArray data fn).2.isSome ↔ 0 < M) := by
  constructor
  · simpa [processArray, hM] using length_filterMap_fst_eq data fn hgood
  · simp only [processArray]
    have hlen := length_filterMap_snd_eq data fn
    by_cases h : (data.filterMap fun a => (fn a).2).isEmpty
    · have h0 : (data.filterMap fun a => (fn a).2).length = 0 := by
        have he := List.isEmpty_iff.mp h
        simp [he]
      have hM0 : M = 0 := by omega
      simp [h, hM0]
    · have h0 : (data.filterMap fun a => (fn a).2) ≠ [] := by
        intro hc
        exact h (by simp [hc])
      have h1 : 0 < (data.filterMap fun a => (fn a).2).length :=
        List.length_pos.mpr h0
      have hMpos : 0 < M := by omega
      simp [h, hMpos]

/-- Claim C6 witness: a concrete slice of three items with one failure. -/
theorem c6_witness :
    (processArray [1, 2, 3]
        (fun n => if n = 2 then (none, some (.msg "boom")) else (some n, none))).1.length
      = 3 - 1 ∧
    ((processArray [1, 2, 3]
        (fun n => if n = 2 then (none, some (.msg "boom")) else (some n, none))).2.isSome
      ↔ 0 < 1) :=
  c6_processArray_counts [1, 2, 3]
    (fun n => if n = 2 then ((none : Option Nat), some (.msg "boom")) else (some n, none))
    1 (by decide) (by decide)

theorem backoffLoop_ok_of (fails : Nat → Bool) (k max : Nat)
    (hf : ∀ j, fails j = decide (j < k)) (hk : k ≤ max) :
    ∀ fuel i, i ≤ k → k - i < fuel →
      backoffLoop fails max none fuel i = (.ok, k + 1) := by
  intro fuel
  induction fuel with
  | zero => intro i _ h; omega
  | succ f ih =>
    intro i hik hfuel
    by_cases hi : i = k
    · subst hi
      simp [backoffLoop, hf i]
    · have hlt : i < k := lt_of_le_of_ne hik hi
      have h1 : fails i = true := by rw [hf i]; simpa using hlt
      have h2 : ¬ max ≤ i := by omega
      simp only [backoffLoop, h1, not_true_eq_false, if_false, ctxCanceledAt, h2]
      simpa using ih (i + 1) (by omega) (by omega)

theorem backoffLoop_max_of (fails : Nat → Bool) (max : Nat)
    (hf : ∀ j, j ≤ max → fails j = true) :
    ∀ fuel i, i ≤ max → max - i < fuel →
      backoffLoop fails max none fuel i = (.maxAttempts, max + 1) := by
  intro fuel
  induction fuel with
  | zero => intro i _ h; omega
  | succ f ih =>
    intro i him hfuel
    have h1 : fails i = true := hf i him
    by_cases hi : i = max
    · subst hi
      simp [backoffLoop, h1, ctxCanceledAt]
    · have h2 : ¬ max ≤ i := by omega
      simp only [backoffLoop, h1, not_true_eq_false, if_false, ctxCanceledAt, h2]
      simpa using ih (i + 1) (by omega) (by omega)

theorem backoffLoop_cancelA_of (fails : Nat → Bool) (max t : Nat)
    (hf : ∀ j, j ≤ t → fails j = true) (ht : t ≤ max) :
    ∀ fuel i, i ≤ t → t - i < fuel →
      backoffLoop fails max (some (2 * t)) fuel i = (.maxAttempts, t + 1) := by
  intro fuel
  induction fuel with
  | zero => intro i _ h; omega
  | succ f ih =>
    intro i hit hfuel
    have h1 : fails i = true := hf i hit
    by_cases hi : i = t
    · subst hi
      simp [backoffLoop, h1, ctxCanceledAt]
    · have hlt : i < t := lt_of_le_of_ne hit hi
      have hA : ¬ 2 * t ≤ 2 * i := by omega
      have hmax : ¬ max ≤ i := by omega
      have hB : ¬ 2 * t ≤ 2 * i + 1 := by omega
      simp only [backoffLoop, h1, not_true_eq_false, if_false, ctxCanceledAt,
        decide_eq_true_eq, hA, hmax, hB]
      exact ih (i + 1) (by omega) (by omega)

theorem backoffLoop_cancelB_of (fails : Nat → Bool) (max t : Nat)
    (hf : ∀ j, j ≤ t → fails j = true) (ht : t < max) :
    ∀ fuel i, i ≤ t → t - i < fuel →
      backoffLoop fails max (some (2 * t + 1)) fuel i = (.ctxErr, t + 1) := by
  intro fuel
  induction fuel with
  | zero => intro i _ h; omega
  | succ f ih =>
    intro i hit hfuel
    have h1 : fails i = true := hf i hit
    by_cases hi : i = t
    · subst hi
      have hA : ¬ 2 * i + 1 ≤ 2 * i := by omega
      have hmax : ¬ max ≤ i := by omega
      simp [backoffLoop, h1, ctxCanceledAt, hA, hmax]
    · have hlt : i < t := lt_of_le_of_ne hit hi
      have hA : ¬ 2 * t + 1 ≤ 2 * i := by omega
      have hmax : ¬ max ≤ i := by omega
      have hB : ¬ 2 * t + 1 ≤ 2 * i + 1 := by omega
      simp only [backoffLoop, h1, not_true_eq_false, if_false, ctxCanceledAt,
        decide_eq_true_eq, hA, hmax, hB]
      exact ih (i + 1) (by omega) (by omega)

/-- Claim C7 (amended): a function failing exactly k times then succeeding
makes Backoff return nil when max retries ≥ k and the "reached maximum
attempts" error when max retries < k.  Canceling the context before the
function ever succeeds stops the call promptly (after the attempt in
progress), but the error returned depends on where cancellation is observed:
during the inter-attempt wait it is ctx.Err(), while at the next-backoff
computation it is the generic "reached maximum attempts" error. -/
theorem c7_backoff_retry_semantics :
    (∀ (fails : Nat → Bool) (k max : Nat),
        (∀ j, fails j = decide (j < k)) → k ≤ max →
        backoffRun fails max none = (.ok, k + 1)) ∧
    (∀ (fails : Nat → Bool) (k max : Nat),
        (∀ j, fails j = decide (j < k)) → max < k →
        backoffRun fails max none = (.maxAttempts, max + 1)) ∧
    (∀ (fails : Nat → Bool) (t max : Nat),
        (∀ j, j ≤ t → fails j = true) → t < max →
        backoffRun fails max (some (2 * t + 1)) = (.ctxErr, t + 1)) ∧
    (∀ (fails : Nat → Bool) (t max : Nat),
        (∀ j, j ≤ t → fails j = true) → t ≤ max →
        backoffRun fails max (some (2 * t)) = (.maxAttempts, t + 1)) := by
  refine ⟨?_, ?_, ?_, ?_⟩
  · intro fails k max hf hk
    exact backoffLoop_ok_of fails k max hf hk (max + 1) 0 (by omega) (by omega)
  · intro fails k max hf hk
    refine backoffLoop_max_of fails max ?_ (max + 1) 0 (by omega) (by omega)
    intro j hj
    rw [hf j]
    simp only [decide_eq_true_eq]
    omega
  · intro fails t max hf ht
    exact backoffLoop_cancelB_of fails max t hf ht (max + 1) 0 (by omega) (by omega)
  · intro fails t max hf ht
    exact backoffLoop_cancelA_of fails max t hf ht (max + 1) 0 (by omega) (by omega)

/-- Claim C7 counterexample: with the context canceled from the start and a
function that keeps failing, Backoff stops after one attempt but returns the
generic "reached maximum attempts" error, not the context cancellation error
the claim requires. -/
theorem c7_counterexample :
    backoffRun (fun _ => true) 5 (some 0) = (.maxAttempts, 1) ∧
    (BackoffResult.maxAttempts, 1) ≠ ((BackoffResult.ctxErr, 1) : BackoffResult × Nat) :=
  ⟨by decide, by decide⟩

/-- Claim C7 witness: concrete instances of all four components of the
amended statement. -/
theorem c7_witness :
    backoffRun (fun j => decide (j < 2)) 3 none = (.ok, 2 + 1) ∧
    backoffRun (fun j => decide (j < 4)) 2 none = (.maxAttempts, 2 + 1) ∧
    backoffRun (fun _ => true) 4 (some (2 * 1 + 1)) = (.ctxErr, 1 + 1) ∧
    backoffRun (fun _ => true) 4 (some (2 * 1)) = (.maxAttempts, 1 + 1) :=
  ⟨c7_backoff_retry_semantics.1 _ 2 3 (fun _ => rfl) (by decide),
   c7_backoff_retry_semantics.2.1 _ 4 2 (fun _ => rfl) (by decide),
   c7_backoff_retry_semantics.2.2.1 _ 1 4 (fun _ _ => rfl) (by decide),
   c7_backoff_retry_semantics.2.2.2 _ 1 4 (fun _ _ => rfl) (by decide)⟩

theorem wrap_render_ne_empty (s : String) (e : GoErr) (hs : s.length ≠ 0) :
    (GoErr.wrap s e).render ≠ "" := by
  show s ++ ": " ++ e.render ≠ ""
  intro h
  have hlen : (s ++ ": " ++ e.render).length = 0 := by rw [h]; rfl
  rw [String.length_append, String.length_append] at hlen
  omega

theorem append3_ne_empty (a b c : String) (ha : a.length ≠ 0) : a ++ b ++ c ≠ "" := by
  intro h
  have hlen : (a ++ b ++ c).length = 0 := by rw [h]; rfl
  rw [String.length_append, String.length_append] at hlen
  omega

/-- Claim C8: the GetStatus state machine — no Docker client yields Unknown
with a reason; a Docker client without a Kubernetes client yields
Unprovisioned; neither container name found yields Unprovisioned; an exited
container yields Stopped; a running container with pod list, server version
and DNS all fine yields Running with the detected Kubernetes version; a
running container with a failing pod list yields Degraded with a reason. -/
theorem c8_getStatus_state_machine (env : StatusEnv) :
    (env.hasDocker = false →
      (getStatus env).1.status = Unknown ∧ (getStatus env).1.reason ≠ "") ∧
    (env.hasDocker = true → env.hasKube = false →
      (getStatus env).1.status = Unprovisioned) ∧
    (env.hasDocker = true → env.hasKube = true →
      env.inspectCurrent = InspectResult.notFound →
      env.inspectLegacy = InspectResult.notFound →
      (getStatus env).1.status = Unprovisioned) ∧
    (∀ lbl, env.hasDocker = true → env.hasKube = true →
      env.inspectCurrent = InspectResult.found "exited" lbl →
      (getStatus env).1.status = Stopped) ∧
    (∀ lbl v, env.hasDocker = true → env.hasKube = true →
      env.inspectCurrent = InspectResult.found "running" lbl →
      env.podListErr = none → env.serverVersion = .ok v → env.dnsErr = none →
      (getStatus env).1.status = Running ∧
      (getStatus env).1.kubernetesVersion = v) ∧
    (∀ lbl e, env.hasDocker = true → env.hasKube = true →
      env.inspectCurrent = InspectResult.found "running" lbl →
      env.podListErr = some e →
      (getStatus env).1.status = Degraded ∧ (getStatus env).1.reason ≠ "") := by
  refine ⟨?_, ?_, ?_, ?_, ?_, ?_⟩
  · intro hd
    refine ⟨by simp [getStatus, hd], ?_⟩
    simpa [getStatus, hd] using
      append3_ne_empty "Failed to communicate with Docker (client couldn" sq
        "t be created)" (by decide)
  · intro hd hk
    simp [getStatus, hd, hk]
  · intro hd hk hc hl
    simp [getStatus, hd, hk, hc, hl]
  · intro lbl hd hk hc
    cases lbl <;> simp [getStatus, getStatusWithContainer, hd, hk, hc]
  · intro lbl v hd hk hc hp hv hdns
    cases lbl <;>
      simp [getStatus, getStatusWithContainer, hd, hk, hc, hp, hv, hdns]
  · intro lbl e hd hk hc hp
    refine ⟨?_, ?_⟩
    · cases lbl <;> simp [getStatus, getStatusWithContainer, hd, hk, hc, hp]
    · have hne : (GoErr.wrap "failed to reach kubernetes" e).render ≠ "" :=
        wrap_render_ne_empty _ e (by decide)
      cases lbl <;>
        simpa [getStatus, getStatusWithContainer, hd, hk, hc, hp] using hne

/-- Status environment with no Docker client, used as a C8 witness input. -/
def statusEnvNoDocker : StatusEnv where
  hasDocker := false
  hasKube := false
  inspectCurrent := .notFound
  inspectLegacy := .notFound
  podListErr := none
  serverVersion := .ok ""
  dnsErr := none

/-- Status environment of a healthy running devenv, used as a C8 witness
input. -/
def statusEnvRunning : StatusEnv where
  hasDocker := true
  hasKube := true
  inspectCurrent := .found "running" (some "v10.5.3")
  inspectLegacy := .notFound
  podListErr := none
  serverVersion := .ok "v1.21.1"
  dnsErr := none

/-- Claim C8 witness: the Unknown and Running branches at concrete
environments. -/
theorem c8_witness :
    (getStatus statusEnvNoDocker).1.status = Unknown ∧
    (getStatus statusEnvRunning).1.status = Running ∧
    (getStatus statusEnvRunning).1.kubernetesVersion = "v1.21.1" :=
  ⟨((c8_getStatus_state_machine statusEnvNoDocker).1 rfl).1,
   ((c8_getStatus_state_machine statusEnvRunning).2.2.2.2.1 (some "v10.5.3")
      "v1.21.1" rfl rfl rfl rfl rfl rfl).1,
   ((c8_getStatus_state_machine statusEnvRunning).2.2.2.2.1 (some "v10.5.3")
      "v1.21.1" rfl rfl rfl rfl rfl rfl).2⟩

/-- Claim C9: type resolution during Deploy — a service.yaml descriptor
yields bootstrap regardless of any deploy script, only the deploy script
yields legacy, and neither yields an explicit unknown-application-type error
with no deploy body invoked. -/
theorem c9_deploy_type_resolution (env : DeployEnv)
    (hdl : env.pathGiven = true ∨ env.downloadErr = none) :
    (env.hasServiceYaml = true → (deployRun env).2 = some AppType.bootstrap) ∧
    (env.hasServiceYaml = false → env.hasDeployScript = true →
      (deployRun env).2 = some AppType.legacy) ∧
    (env.hasServiceYaml = false → env.hasDeployScript = false →
      deployRun env =
        (some (.msg "failed to determine application type, no service.yaml or scripts/deploy-dev.sh"),
         none)) := by
  refine ⟨?_, ?_, ?_⟩
  · intro hs
    rcases hdl with h | h <;> simp [deployRun, h, hs]
  · intro hs hleg
    rcases hdl with h | h <;> simp [deployRun, h, hs, hleg]
  · intro hs hleg
    rcases hdl with h | h <;> simp [deployRun, h, hs, hleg]

/-- Checkout with both a service.yaml and a deploy script. -/
def deployEnvBoth : DeployEnv where
  pathGiven := true
  downloadErr := none
  hasServiceYaml := true
  hasDeployScript := true
  deleteJobsErr := none
  deployBootstrapErr := none
  deployLegacyErr := none

/-- Checkout with only the legacy deploy script. -/
def deployEnvScript : DeployEnv where
  pathGiven := true
  downloadErr := none
  hasServiceYaml := false
  hasDeployScript := true
  deleteJobsErr := none
  deployBootstrapErr := none
  deployLegacyErr := none

/-- Checkout with neither descriptor file. -/
def deployEnvNeither : DeployEnv where
  pathGiven := true
  downloadErr := none
  hasServiceYaml := false
  hasDeployScript := false
  deleteJobsErr := none
  deployBootstrapErr := none
  deployLegacyErr := none

/-- Claim C9 witness: a checkout with both descriptor files resolves to
bootstrap, one with only the script to legacy, one with neither errors. -/
theorem c9_witness :
    (deployRun deployEnvBoth).2 = some AppType.bootstrap ∧
    (deployRun deployEnvScript).2 = some AppType.legacy ∧
    deployRun deployEnvNeither =
      (some (.msg "failed to determine application type, no service.yaml or scripts/deploy-dev.sh"),
       none) :=
  ⟨(c9_deploy_type_resolution deployEnvBoth (Or.inl rfl)).1 rfl,
   (c9_deploy_type_resolution deployEnvScript (Or.inl rfl)).2.1 rfl rfl,
   (c9_deploy_type_resolution deployEnvNeither (Or.inl rfl)).2.2 rfl rfl⟩

/-- The duplicate-source-port error of the local-app port loop. -/
def dupPortMsg (sp dp : Nat) : GoErr :=
  .msg ("port " ++ toString sp ++ " is already mapped to " ++ toString dp)

theorem portsLookup_eq_none (m : List (Nat × Nat)) (k : Nat)
    (h : k ∉ m.map Prod.fst) : portsLookup m k = none := by
  induction m with
  | nil => rfl
  | cons p rest ih =>
    cases p with
    | mk a b =>
      simp only [List.map_cons, List.mem_cons] at h
      push_neg at h
      simp only [portsLookup, if_neg (Ne.symm h.1)]
      exact ih h.2

theorem portsLookup_ne_none (m : List (Nat × Nat)) (k : Nat)
    (h : k ∈ m.map Prod.fst) : portsLookup m k ≠ none := by
  induction m with
  | nil => simp at h
  | cons p rest ih =>
    cases p with
    | mk a b =>
      by_cases hak : a = k
      · simp [portsLookup, hak]
      · simp only [List.map_cons, List.mem_cons] at h
        rcases h with h | h
        · exact absurd h.symm hak
        · simpa [portsLookup, hak] using ih h

theorem portLoop_ok (flags : List String) (pairs : List (Nat × Nat))
    (hparse : List.Forall₂ (fun s p => parsePortEntry s = .ok p) flags pairs) :
    ∀ m : List (Nat × Nat), ((m ++ pairs).map Prod.fst).Nodup →
      localAppPortLoop flags m = .ok (m ++ pairs) := by
  induction hparse with
  | nil => intro m _; simp [localAppPortLoop]
  | @cons s p tl ptl hsp _ ih =>
    intro m hnd
    cases p with
    | mk sp dp =>
      have hnotm : sp ∉ m.map Prod.fst := by
        intro hc
        have hmem : sp ∈ (m ++ (sp, dp) :: ptl).map Prod.fst := by
          simp
        rcases List.nodup_append.mp (by simpa using hnd) with ⟨_, _, hdisj⟩
        exact hdisj hc (by simp)
      have hrearr : m ++ (sp, dp) :: ptl = (m ++ [(sp, dp)]) ++ ptl := by
        simp
      simp only [localAppPortLoop, hsp, portsLookup_eq_none m sp hnotm]
      rw [hrearr] at hnd ⊢
      exact ih (m ++ [(sp, dp)]) hnd

theorem portLoop_dup (flags : List String) (pairs : List (Nat × Nat))
    (hparse : List.Forall₂ (fun s p => parsePortEntry s = .ok p) flags pairs) :
    ∀ m : List (Nat × Nat), (m.map Prod.fst).Nodup →
      ¬ ((m ++ pairs).map Prod.fst).Nodup →
      ∃ sp dp, localAppPortLoop flags m = .error (dupPortMsg sp dp) ∧
        sp ∈ (m ++ pairs).map Prod.fst := by
  induction hparse with
  | nil =>
    intro m hm hnd
    exact absurd (by simpa using hm) hnd
  | @cons s p tl ptl hsp _ ih =>
    intro m hm hnd
    cases p with
    | mk sp dp =>
      cases hlook : portsLookup m sp with
      | some dst =>
        refine ⟨sp, dst, ?_, by simp⟩
        simp [localAppPortLoop, hsp, hlook, dupPortMsg]
      | none =>
        have hnotm : sp ∉ m.map Prod.fst := by
          intro hc
          exact portsLookup_ne_none m sp hc hlook
        have hrearr : m ++ (sp, dp) :: ptl = (m ++ [(sp, dp)]) ++ ptl := by
          simp
        have hm2 : ((m ++ [(sp, dp)]).map Prod.fst).Nodup := by
          simp only [List.map_append, List.map_cons, List.map_nil]
          rw [List.nodup_append]
          exact ⟨hm, List.nodup_singleton _, by simpa using hnotm⟩
        have hnd2 : ¬ (((m ++ [(sp, dp)]) ++ ptl).map Prod.fst).Nodup := by
          rw [← hrearr]
          exact hnd
        obtain ⟨sp2, dp2, hloop, hmem⟩ := ih (m ++ [(sp, dp)]) hm2 hnd2
        refine ⟨sp2, dp2, ?_, ?_⟩
        · simpa [localAppPortLoop, hsp, hlook] using hloop
        · rw [hrearr]
          exact hmem

/-- Claim C10: when two --port mappings name the same source port, the
local-app command rejects the invocation with an error naming the
already-mapped port before o.Run (where all tunnel/manifest work happens) is
reached; with pairwise-distinct source ports every mapping is recorded and
o.Run is reached. -/
theorem c10_local_app_ports (app : String) (flags : List String)
    (pairs : List (Nat × Nat))
    (hparse : List.Forall₂ (fun s p => parsePortEntry s = .ok p) flags pairs) :
    (¬ (pairs.map Prod.fst).Nodup →
      (localAppAction [app] flags).ranRun = false ∧
      ∃ sp dp, (localAppAction [app] flags).ret = some (dupPortMsg sp dp) ∧
        sp ∈ pairs.map Prod.fst) ∧
    ((pairs.map Prod.fst).Nodup →
      localAppAction [app] flags = { ret := none, ports := pairs, ranRun := true }) := by
  constructor
  · intro hdup
    obtain ⟨sp, dp, hloop, hmem⟩ :=
      portLoop_dup flags pairs hparse [] (by simp) (by simpa using hdup)
    have hact : localAppAction [app] flags =
        { ret := some (dupPortMsg sp dp), ports := [], ranRun := false } := by
      simp [localAppAction, hloop]
    refine ⟨by simp [hact], sp, dp, by simp [hact], by simpa using hmem⟩
  · intro hnd
    have hloop := portLoop_ok flags pairs hparse [] (by simpa using hnd)
    simp [localAppAction, hloop]

/-- Claim C10 witness: a duplicated source port 8080 is rejected with the
already-mapped-port error, and distinct source ports are recorded. -/
theorem c10_witness :
    ((localAppAction ["svc"] ["8080:80", "8080:90"]).ranRun = false ∧
      ∃ sp dp, (localAppAction ["svc"] ["8080:80", "8080:90"]).ret =
          some (dupPortMsg sp dp) ∧
        sp ∈ ([(8080, 80), (8080, 90)].map Prod.fst)) ∧
    localAppAction ["svc"] ["8080:80", "9090:90"] =
      { ret := none, ports := [(8080, 80), (9090, 90)], ranRun := true } :=
  ⟨(c10_local_app_ports "svc" ["8080:80", "8080:90"] [(8080, 80), (8080, 90)]
      (List.Forall₂.cons rfl
        (List.Forall₂.cons rfl List.Forall₂.nil))).1 (by decide),
   (c10_local_app_ports "svc" ["8080:80", "9090:90"] [(8080, 80), (9090, 90)]
      (List.Forall₂.cons rfl
        (List.Forall₂.cons rfl List.Forall₂.nil))).2 (by decide)⟩

theorem restoreSubmitAndWatch_called (env : RestoreEnv) (b : Bool) :
    (restoreSubmitAndWatch env b).deleteNamespacesCalled = b := by
  unfold restoreSubmitAndWatch
  cases env.createRestoreErr with
  | some e => rfl
  | none =>
    cases h : watchRestore env.updates with
    | some e => simp [h]
    | none => simp [h]

/-- Claim C2: a live (destructive) RestoreSnapshot whose confirmation prompt
is answered no returns the "denied to proceed" error without any namespace
deletion, and deleteNamespaces is only ever invoked on the live path after
the prompt was answered yes. -/
theorem c2_restore_confirmation_gate :
    (∀ (env : RestoreEnv) (name : String), name ≠ "" → env.confirm = .ok false →
      restoreSnapshot env name true =
        { ret := some (.msg "denied to proceed"), deleteNamespacesCalled := false }) ∧
    (∀ (env : RestoreEnv) (name : String) (live : Bool),
      (restoreSnapshot env name live).deleteNamespacesCalled = true →
      live = true ∧ env.confirm = .ok true) := by
  constructor
  · intro env name hname hconf
    simp [restoreSnapshot, hname, hconf]
  · intro env name live hcalled
    unfold restoreSnapshot at hcalled
    by_cases hname : name = ""
    · rw [if_pos hname] at hcalled
      simp at hcalled
    · rw [if_neg hname] at hcalled
      cases live with
      | false =>
        exfalso
        simp only [Bool.false_eq_true, if_false] at hcalled
        cases hgs : env.getSnapshotErr with
        | some e => simp [hgs] at hcalled
        | none =>
          cases hde : deleteExistingRestore env with
          | some e => simp [hgs, hde] at hcalled
          | none =>
            simp only [hgs, hde, Bool.false_eq_true, if_false] at hcalled
            rw [restoreSubmitAndWatch_called] at hcalled
            exact Bool.false_ne_true hcalled
      | true =>
        refine ⟨rfl, ?_⟩
        cases hc : env.confirm with
        | error e => simp [hc] at hcalled
        | ok proceed =>
          cases proceed with
          | false => simp [hc] at hcalled
          | true => rfl

/-- Restore environment whose operator answers the destructive prompt with
no. -/
def restoreEnvDenied : RestoreEnv where
  confirm := .ok false
  getSnapshotErr := none
  existingRestore := none
  deleteRestoreErr := none
  deleteRestorePoll := .gone
  deleteNs :=
    { listErr := none, namespaces := ["bento1a", "default"],
      deleteErr := fun _ => none, poll := fun _ => .gone }
  createRestoreErr := none
  updates := [.completed]

/-- Claim C2 witness: the denied live restore at a concrete environment. -/
theorem c2_witness :
    restoreSnapshot restoreEnvDenied "snapshot-1" true =
      { ret := some (.msg "denied to proceed"), deleteNamespacesCalled := false } :=
  c2_restore_confirmation_gate.1 restoreEnvDenied "snapshot-1" (by decide) rfl

/-- Claim C3: a staging-job run whose downloaded archive hashes to a digest
different from the configured source digest fails in DownloadFile with the
explicit checksum-validation error; UploadArchiveContents is never reached,
so nothing is extracted into the destination bucket and the marker is not
rewritten. -/
theorem c3_checksum_gate (env : UploaderEnv)
    (hp : env.parseErr = none)
    (hc1 : env.createSourceErr = none) (hc2 : env.createDestErr = none)
    (hg : env.getSourceObjErr = none) (ht : env.createTempErr = none)
    (hm : env.mkdirErr = none) (hcr : env.createErr = none)
    (hcp : env.copyErr = none)
    (hd : env.computedDigest ≠ env.conf.source.digest) :
    (startFromEnv env).ret =
      some (stepWrap "DownloadFile" (.msg "downloaded snapshot failed checksum validation")) ∧
    (startFromEnv env).trace.extracted = [] ∧
    (startFromEnv env).trace.markerWritten = false := by
  have hdl : downloadFile env =
      some (.msg "downloaded snapshot failed checksum validation") := by
    simp [downloadFile, hg, ht, hm, hcr, hcp, hd]
  have hcc : createClients env = none := by
    simp [createClients, hc1, hc2]
  refine ⟨?_, ?_, ?_⟩ <;> simp [startFromEnv, hp, hcc, hdl]

/-- Staging-job environment whose download hashes to a digest different from
the catalog digest. -/
def uploaderEnvBadDigest : UploaderEnv where
  conf :=
    { source :=
        { awsAccessKey := "AKIA1", awsSecretKey := "s1", awsSessionToken := "",
          s3Host := "s3.us-east-2.amazonaws.com", bucket := "outreach-devenv-snapshots",
          region := "us-east-2", key := "automated-snapshots/v2/base/1.tar",
          digest := "Zm9vYmFy" },
      dest :=
        { awsAccessKey := "minioaccess", awsSecretKey := "miniosecret",
          awsSessionToken := "", s3Host := "minio.minio:9000",
          bucket := "velero-restore", region := "", key := "", digest := "" } }
  parseErr := none
  createSourceErr := none
  createDestErr := none
  markerDigest := none
  destObjects := ["backups/velero/stale.json"]
  getSourceObjErr := none
  createTempErr := none
  mkdirErr := none
  createErr := none
  copyErr := none
  computedDigest := "YmFkYmFk"
  reopenErr := none
  archive := [.reg "backups/velero/b1.json" 10]
  tarErr := none
  putErr := fun _ => none
  markerPutErr := none

/-- Claim C3 witness: the checksum gate at a concrete environment. -/
theorem c3_witness :
    (startFromEnv uploaderEnvBadDigest).ret =
      some (stepWrap "DownloadFile" (.msg "downloaded snapshot failed checksum validation")) ∧
    (startFromEnv uploaderEnvBadDigest).trace.extracted = [] ∧
    (startFromEnv uploaderEnvBadDigest).trace.markerWritten = false :=
  c3_checksum_gate uploaderEnvBadDigest rfl rfl rfl rfl rfl rfl rfl rfl (by decide)

/-- Staging-job environment whose destination marker already records the
requested source digest: the C4 failing input. -/
def uploaderEnvMarkerMatch : UploaderEnv where
  conf :=
    { source :=
        { awsAccessKey := "AKIA1", awsSecretKey := "s1", awsSessionToken := "",
          s3Host := "s3.us-east-2.amazonaws.com", bucket := "outreach-devenv-snapshots",
          region := "us-east-2", key := "automated-snapshots/v2/base/1.tar",
          digest := "Zm9vYmFy" },
      dest :=
        { awsAccessKey := "minioaccess", awsSecretKey := "miniosecret",
          awsSessionToken := "", s3Host := "minio.minio:9000",
          bucket := "velero-restore", region := "", key := "", digest := "" } }
  parseErr := none
  createSourceErr := none
  createDestErr := none
  markerDigest := some "Zm9vYmFy"
  destObjects := ["backups/velero/b1.json", "current.yaml"]
  getSourceObjErr := none
  createTempErr := none
  mkdirErr := none
  createErr := none
  copyErr := none
  computedDigest := "Zm9vYmFy"
  reopenErr := none
  archive := [.reg "backups/velero/b1.json" 10, .dir "files", .reg "./files/f1" 1]
  tarErr := none
  putErr := fun _ => none
  markerPutErr := none

/-- Claim C4 evaluation at its failing input: when the destination marker
digest equals the requested source digest, the job skips only the
bucket-clearing — it still starts the download and re-extracts every regular
file of the archive into the destination, instead of skipping straight to
success as the claim (and the code comment on Prepare) state. -/
theorem c4_no_skip_on_marker_match :
    (startFromEnv uploaderEnvMarkerMatch).trace.cleared = [] ∧
    (startFromEnv uploaderEnvMarkerMatch).trace.downloadAttempted = true ∧
    (startFromEnv uploaderEnvMarkerMatch).trace.extracted =
      ["backups/velero/b1.json", "files/f1"] ∧
    (startFromEnv uploaderEnvMarkerMatch).trace.markerWritten = true ∧
    (startFromEnv uploaderEnvMarkerMatch).ret = none :=
  ⟨rfl, rfl, rfl, rfl, rfl⟩

theorem alGet_alPut_same (m : List (String × V)) (k : String) (v : V) :
    alGet (alPut m k v) k = some v := by
  induction m with
  | nil => simp [alPut, alGet]
  | cons p rest ih =>
    cases p with
    | mk a b =>
      by_cases h : a = k
      · simp [alPut, alGet, h]
      · simp [alPut, alGet, h, ih]

theorem alGet_alPut_other (m : List (String × V)) (k k2 : String) (v : V)
    (h : k2 ≠ k) : alGet (alPut m k v) k2 = alGet m k2 := by
  have hkk2 : ¬ (k = k2) := fun hc => h hc.symm
  induction m with
  | nil => simp [alPut, alGet, hkk2]
  | cons p rest ih =>
    cases p with
    | mk a b =>
      by_cases ha : a = k
      · subst ha
        simp [alPut, alGet, hkk2]
      · simp [alPut, alGet, ha, ih]

theorem lockGet_insertLockItem_same (lf : SnapshotLock) (name channel : String)
    (itm : SnapshotLockListItem) :
    lockGet (insertLockItem lf name channel itm) name channel =
      itm :: lockGet lf name channel := by
  cases hm : alGet (lf.targetsV2.getD []) name with
  | none => simp [lockGet, insertLockItem, hm, alGet_alPut_same, alGet]
  | some ll => simp [lockGet, insertLockItem, hm, alGet_alPut_same]

theorem lockGet_insertLockItem_other (lf : SnapshotLock) (name name2 channel : String)
    (itm : SnapshotLockListItem) (h : name2 ≠ name) :
    lockGet (insertLockItem lf name channel itm) name2 channel =
      lockGet lf name2 channel := by
  simp [lockGet, insertLockItem, alGet_alPut_other _ _ _ _ h]

theorem genLoop_preserves (gen : String → Except GoErr SnapshotLockListItem)
    (channel T : String) (ts : List (String × SnapshotTarget)) :
    ∀ lf lfF : SnapshotLock, T ∉ ts.map Prod.fst →
      genLoop gen channel ts lf = .ok lfF →
      lockGet lfF T channel = lockGet lf T channel := by
  induction ts with
  | nil =>
    intro lf lfF _ h
    cases h
    rfl
  | cons p rest ih =>
    intro lf lfF hT h
    cases p with
    | mk n t =>
      simp only [List.map_cons, List.mem_cons] at hT
      push_neg at hT
      simp only [genLoop] at h
      cases hg : gen n with
      | error e => simp [hg] at h
      | ok itm =>
        rw [hg] at h
        have hrec := ih (insertLockItem lf n channel itm) lfF hT.2 h
        rw [hrec, lockGet_insertLockItem_other lf n T channel itm hT.1]

theorem genLoop_unique (gen : String → Except GoErr SnapshotLockListItem)
    (channel T : String) (itm : SnapshotLockListItem)
    (ts : List (String × SnapshotTarget)) :
    ∀ lf lfF : SnapshotLock, (ts.map Prod.fst).count T = 1 →
      gen T = .ok itm →
      genLoop gen channel ts lf = .ok lfF →
      lockGet lfF T channel = itm :: lockGet lf T channel := by
  induction ts with
  | nil =>
    intro lf lfF hc _ _
    simp at hc
  | cons p rest ih =>
    intro lf lfF hc hitm h
    cases p with
    | mk n t =>
      simp only [genLoop] at h
      by_cases hn : n = T
      · subst hn
        have hc0 : (rest.map Prod.fst).count n = 0 := by
          simp [List.count_cons] at hc
          omega
        have hnotmem : n ∉ rest.map Prod.fst := by
          rw [← List.count_eq_zero]
          exact hc0
        rw [hitm] at h
        have hpres := genLoop_preserves gen channel n rest
          (insertLockItem lf n channel itm) lfF hnotmem h
        rw [hpres, lockGet_insertLockItem_same]
      · have hc1 : (rest.map Prod.fst).count T = 1 := by
          have hTn : ¬ (T = n) := fun hc2 => hn hc2.symm
          simp [List.count_cons, hTn] at hc
          exact hc
        cases hg : gen n with
        | error e => simp [hg] at h
        | ok it2 =>
          rw [hg] at h
          have hrec := ih (insertLockItem lf n channel it2) lfF hc1 hitm h
          rw [hrec,
            lockGet_insertLockItem_other lf n T channel it2 (fun hc2 => hn hc2.symm)]

theorem genLoop_total (gen : String → Except GoErr SnapshotLockListItem)
    (channel : String) (ts : List (String × SnapshotTarget)) :
    ∀ lf : SnapshotLock, (∀ n ∈ ts.map Prod.fst, ∃ it, gen n = .ok it) →
      ∃ lfF, genLoop gen channel ts lf = .ok lfF := by
  induction ts with
  | nil =>
    intro lf _
    exact ⟨lf, rfl⟩
  | cons p rest ih =>
    intro lf hall
    cases p with
    | mk n t =>
      obtain ⟨it, hit⟩ := hall n (by simp)
      obtain ⟨lfF, hF⟩ :=
        ih (insertLockItem lf n channel it) (fun x hx => hall x (by simp [hx]))
      exact ⟨lfF, by simp [genLoop, hit, hF]⟩

/-- Claim C5: a generation run over a target T and channel C prepends the
newly produced item at index 0 of targets[T].snapshots[C], leaving every
previously present item in place shifted by one — history is never
overwritten or truncated. -/
theorem c5_catalog_prepend (env : GenEnv) (skipUpload : Bool)
    (channel T : String) (itm : SnapshotLockListItem) (lf0 : SnapshotLock)
    (h1 : env.loadBoxErr = none) (h2 : env.credsErr = none)
    (h3 : env.awsCfgErr = none)
    (h4 : loadedLock env = .ok lf0)
    (h5 : (env.targets.map Prod.fst).count T = 1)
    (h6 : env.genResult T = .ok itm)
    (h7 : ∀ n ∈ env.targets.map Prod.fst, ∃ it, env.genResult n = .ok it) :
    ∃ lfF, (generateRun env skipUpload channel).finalLock = some lfF ∧
      lockGet lfF T channel = itm :: lockGet lf0 T channel := by
  set lfN : SnapshotLock := { lf0 with targetsV2 := some (lf0.targetsV2.getD []) } with hlfN
  obtain ⟨lfF, hF⟩ := genLoop_total env.genResult channel env.targets lfN h7
  have hget := genLoop_unique env.genResult channel T itm env.targets lfN lfF h5 h6 hF
  have hsame : lockGet lfN T channel = lockGet lf0 T channel := by
    simp [lockGet, hlfN]
  refine ⟨lfF, ?_, by rw [hget, hsame]⟩
  simp only [generateRun, h1, h2, h3, h4]
  rw [← hlfN, hF]
  cases skipUpload with
  | false => cases env.putLockErr <;> simp
  | true => simp

/-- A sample snapshot target used in the C5 witness. -/
def genTargetBase : SnapshotTarget where
  deployApps := ["flagship"]
  postDeployApps := []
  command := ""
  postRestore := ""
  readinessAddress := ""

/-- The pre-existing catalog head item of the C5 witness. -/
def genItemOld : SnapshotLockListItem where
  digest := "b2xk"
  uri := "automated-snapshots/v2/base/1.tar"
  config := genTargetBase
  veleroBackupName := "20210101-000000"

/-- The newly generated item of the C5 witness. -/
def genItemNew : SnapshotLockListItem where
  digest := "bmV3"
  uri := "automated-snapshots/v2/base/2.tar"
  config := genTargetBase
  veleroBackupName := "20210202-000000"

/-- The catalog already holding one item for (base, stable). -/
def lockWithOld : SnapshotLock where
  targetsV2 := some [("base", { snapshots := some [("stable", [genItemOld])] })]

/-- A generation environment over the single target base whose remote
catalog already holds genItemOld on channel stable. -/
def genEnvBase : GenEnv where
  loadBoxErr := none
  credsErr := none
  awsCfgErr := none
  getLockFailed := false
  decodeLockErr := none
  remoteLock := lockWithOld
  targets := [("base", genTargetBase)]
  genResult := fun _ => .ok genItemNew
  putLockErr := none

/-- Claim C5 witness: generating over the single target base prepends the
new item ahead of the already-present one. -/
theorem c5_witness :
    ∃ lfF, (generateRun genEnvBase false "stable").finalLock = some lfF ∧
      lockGet lfF "base" "stable" = genItemNew :: lockGet lockWithOld "base" "stable" :=
  c5_catalog_prepend genEnvBase false "stable" "base" genItemNew lockWithOld
    rfl rfl rfl rfl (by decide) rfl (fun n _ => ⟨genItemNew, rfl⟩)

/-- Claim C1 (amended): a provisioning run whose snapshot-restore branch
fails makes exactly one destroy attempt against the newly created cluster
under its canonical name and returns the wrapped original restore error
(provided construction of the cleanup destroy options succeeds) — but the
local context pointer was already updated to reference that cluster when it
was created and the cleanup does not revert it, so after the failed run the
pointer still references the now-destroyed cluster. -/
theorem c1_cleanup_semantics (env : ProvisionEnv) (denv : DestroyEnv) (e : GoErr)
    (cs : List String)
    (h0 : (if env.runtimeType = RuntimeType.localType ∧ env.goosDarwin
           then env.configureDockerErr else none) = none)
    (h1 : env.checkPrereqsErr = none)
    (h2 : env.getClusters = .ok cs) (h2b : env.clusterName ∉ cs)
    (h3 : env.ensureImagePullErr = none) (h4 : env.generateDockerConfigErr = none)
    (h5 : env.createErr = none) (h6 : env.saveConfigErr = none)
    (h7 : env.getKubeConfigErr = none) (h8 : env.writeKubeConfigErr = none)
    (h9 : env.kubeClientErr = none) (h10 : env.removeServiceImagesErr = none)
    (hbase : env.base = false)
    (hsnap : env.snapshotRestoreErr = some e)
    (hdn : env.destroyNewOptionsErr = none) :
    provisionRun env denv =
      { savedContext := some (env.runtimeName ++ ":" ++ env.clusterName),
        destroyAttempts := [env.clusterName],
        ret := some (.wrap "failed to provision from snapshot" e) } := by
  simp [provisionRun, h0, h1, h2, h2b, h3, h4, h5, h6, h7, h8, h9, h10,
    hbase, hsnap, hdn, destroyRun]

/-- A provisioning environment on the local kind runtime whose
snapshot-restore branch fails; every earlier step succeeds. -/
def provisionEnvRestoreFail : ProvisionEnv where
  runtimeName := "kind"
  clusterName := "dev-environment"
  runtimeType := .localType
  goosDarwin := false
  configureDockerErr := none
  checkPrereqsErr := none
  getClusters := .ok []
  ensureImagePullErr := none
  generateDockerConfigErr := none
  createErr := none
  saveConfigErr := none
  getKubeConfigErr := none
  writeKubeConfigErr := none
  kubeClientErr := none
  removeServiceImagesErr := none
  base := false
  snapshotRestoreErr := some (.msg "failed to restore snapshot")
  deployBaseManifestsErr := none
  destroyNewOptionsErr := none
  deployAppNewOptionsErr := none
  deployApps := []

/-- Claim C1 counterexample: at a concrete failing snapshot-restore run, the
saved context pointer equals kind:dev-environment — the pointer HAS been
updated to reference the cluster that was just created (and then destroyed),
refuting the claim that it is never updated to reference that cluster; the
single destroy attempt and the wrapped original error are also visible. -/
theorem c1_counterexample :
    provisionRun provisionEnvRestoreFail { volumeRemoveErr := none } =
      { savedContext := some "kind:dev-environment",
        destroyAttempts := ["dev-environment"],
        ret := some (.wrap "failed to provision from snapshot"
          (.msg "failed to restore snapshot")) } ∧
    (some "kind:dev-environment" : Option String) ≠ none :=
  ⟨by decide, by decide⟩

/-- Claim C1 witness: the amended cleanup semantics at the concrete failing
environment. -/
theorem c1_witness :
    provisionRun provisionEnvRestoreFail { volumeRemoveErr := none } =
      { savedContext :=
          some (provisionEnvRestoreFail.runtimeName ++ ":" ++
            provisionEnvRestoreFail.clusterName),
        destroyAttempts := [provisionEnvRestoreFail.clusterName],
        ret := some (.wrap "failed to provision from snapshot"
          (.msg "failed to restore snapshot")) } :=
  c1_cleanup_semantics provisionEnvRestoreFail { volumeRemoveErr := none }
    (.msg "failed to restore snapshot") []
    (by decide) rfl rfl (by decide) rfl rfl rfl rfl rfl rfl rfl rfl rfl rfl rfl

end Devenv
